import Mathlib

/-!
Shallow embedding of the homework-status polling bot (`homework.py`,
`exceptions.py`).  Decoded JSON values are modelled by `JValue`; Python
exceptions raised by this program are modelled by `PyError`; fallible
Python functions become Lean functions into `Except PyError _`.  The
module-level constants imported from `constants.py` (not part of the
source tree) are modelled from the specification and marked as such.
-/

namespace HomeworkBot

/-- A decoded JSON value, as produced by `response.json()`.  Python dicts
are modelled as association lists with the usual first-match lookup. -/
inductive JValue where
  | null
  | bool (b : Bool)
  | int (n : Int)
  | str (s : String)
  | list (xs : List JValue)
  | dict (entries : List (String × JValue))
deriving Repr

/-- The Python exceptions this program can raise.  Every constructor
models a class deriving `Exception` (never `BaseException` directly):
`requests.RequestException`, `requests.HTTPError`, `telegram.error.TelegramError`,
`UnboundLocalError`, `TypeError`, `KeyError`, and the project's own
`NoEnvironmentVariables` (an `Exception`), `NoDocumentedKeyInDict`
(a `KeyError`) and `UndocumentedDataType` (a `TypeError`). -/
inductive PyError where
  | noEnvironmentVariables (msg : String)
  | noDocumentedKeyInDict (msg : String)
  | undocumentedDataType (msg : String)
  | requestException (msg : String)
  | httpError (msg : String)
  | telegramError (msg : String)
  | unboundLocalError (varName : String)
  | typeError (msg : String)
  | keyError (key : String)
deriving Repr, DecidableEq

/-- Python `repr()` on a decoded-JSON value (used inside container
displays; string escaping is not reproduced, no claim depends on it). -/
def pyRepr : JValue → String
  | .null => "None"
  | .bool true => "True"
  | .bool false => "False"
  | .int n => toString n
  | .str s => "'" ++ s ++ "'"
  | .list xs => "[" ++ String.intercalate ", " (xs.attach.map (fun x => pyRepr x.1)) ++ "]"
  | .dict es =>
      "\x7b" ++
        String.intercalate ", "
          (es.attach.map (fun e => "'" ++ e.1.1 ++ "': " ++ pyRepr e.1.2)) ++
      "\x7d"
decreasing_by
  · simp_wf
    have := List.sizeOf_lt_of_mem x.2
    omega
  · rcases e with ⟨⟨k, v⟩, hmem⟩
    simp_wf
    have := List.sizeOf_lt_of_mem hmem
    simp at this
    omega

/-- Python `str()` on a decoded-JSON value, as an f-string interpolates it. -/
def pyStr : JValue → String
  | .str s => s
  | v => pyRepr v

/-- Python `str()` on an exception: its message (for a bare `KeyError`,
the `repr` of the missing key, as CPython prints it). -/
def errStr : PyError → String
  | .noEnvironmentVariables m => m
  | .noDocumentedKeyInDict m => "'" ++ m ++ "'"
  | .undocumentedDataType m => m
  | .requestException m => m
  | .httpError m => m
  | .telegramError m => m
  | .unboundLocalError v =>
      "local variable '" ++ v ++ "' referenced before assignment"
  | .typeError m => m
  | .keyError k => "'" ++ k ++ "'"

/-- First-match lookup in a Python dict (`d[k]` when present). -/
def dictLookup (es : List (String × JValue)) (k : String) : Option JValue :=
  match es with
  | [] => none
  | (k', v) :: rest => if k' = k then some v else dictLookup rest k

/-- Whether `pat` occurs at the start of `text`. -/
def charsStartWith : List Char → List Char → Bool
  | [], _ => true
  | _ :: _, [] => false
  | c :: cs, d :: ds => c = d && charsStartWith cs ds

/-- Whether `pat` occurs anywhere in `text`. -/
def charsContain (pat : List Char) : List Char → Bool
  | [] => charsStartWith pat []
  | c :: rest => charsStartWith pat (c :: rest) || charsContain pat rest

/-- Substring test, the Python `key in someString` membership check. -/
def containsSubstr (s key : String) : Bool :=
  charsContain key.data s.data

/-- Python `key in container` for a string key: key membership on dicts,
element membership on lists, substring on strings, `TypeError` otherwise. -/
def pyContains (container : JValue) (key : String) : Except PyError Bool :=
  match container with
  | .dict es => .ok (dictLookup es key).isSome
  | .list xs =>
      .ok (xs.any (fun x => match x with | .str s => s = key | _ => false))
  | .str s => .ok (containsSubstr s key)
  | _ => .error (.typeError "argument of type is not a container")

/-- Python subscript `container[key]` for a string key: `KeyError` on a
missing dict key, `TypeError` on a non-dict. -/
def pySubscript (container : JValue) (key : String) : Except PyError JValue :=
  match container with
  | .dict es =>
      match dictLookup es key with
      | some v => .ok v
      | none => .error (.keyError key)
  | _ => .error (.typeError "object is not subscriptable with a string key")

/-- `operator.itemgetter('homework_name', 'status')(homework)`: extracts
both values, raising a plain `KeyError` (never the project's
`NoDocumentedKeyInDict` subclass) when a key is missing. -/
def itemgetter2 (container : JValue) (k1 k2 : String) :
    Except PyError (JValue × JValue) :=
  match pySubscript container k1 with
  | .error e => .error e
  | .ok v1 =>
      match pySubscript container k2 with
      | .error e => .error e
      | .ok v2 => .ok (v1, v2)

/-- Modelled from the spec: `constants.py` is not under `src/`.  The
Verdict Table (`HOMEWORK_VERDICTS`), an immutable mapping from status
code to display string; the spec documents the `approved` entry. -/
def HOMEWORK_VERDICTS : List (String × String) :=
  [("approved", "Работа проверена: ревьюеру всё понравилось. Ура!")]

/-- Modelled from the spec: `constants.py` is not under `src/`.  Index of
the only record consulted — "only the first is consulted". -/
def FIRST_ELEMENT : Nat := 0

/-- Modelled from the spec: `constants.py` is not under `src/`.  The
fixed API endpoint URL (its exact text is irrelevant to the claims). -/
def ENDPOINT : String := "https://practicum.api/homework_statuses/"

/-- Modelled from the spec: `constants.py` is not under `src/`.  The
fixed polling interval in seconds (its value is not given by the spec). -/
def RETRY_PERIOD : Nat := 600

/-- Modelled from the spec: `constants.py` is not under `src/`.  The
names of the three required environment variables. -/
def TOKEN_NAMES : List String :=
  ["PRACTICUM_TOKEN", "TELEGRAM_TOKEN", "TELEGRAM_CHAT_ID"]

/-- First-match lookup in the verdict table (`status in HOMEWORK_VERDICTS`,
`HOMEWORK_VERDICTS[status]`). -/
def verdictLookup (key : String) : Option String :=
  match HOMEWORK_VERDICTS.find? (fun p => p.1 = key) with
  | some p => some p.2
  | none => none

/-- The fixed message of every shape-validation failure
(`check_response` raises `UndocumentedDataType` with this text in all
failure cases). -/
def checkResponseErrMsg : String :=
  "Ключ homeworks отсутствует в аргументе response функции check_response."

/-- `check_response`: succeeds silently iff the value is a dict holding
both the `current_date` and `homeworks` keys with a list under
`homeworks`; otherwise raises the one `UndocumentedDataType` error.
The source's `isinstance(...) and all(...) and isinstance(response.get(..), list)`
condition short-circuits, so `.get` is only reached on a dict. -/
def check_response (response : JValue) : Except PyError Unit :=
  match response with
  | .dict es =>
      if (dictLookup es "current_date").isSome
          && (dictLookup es "homeworks").isSome
          && (match dictLookup es "homeworks" with
              | some (.list _) => true
              | _ => false) then
        .ok ()
      else
        .error (.undocumentedDataType checkResponseErrMsg)
  | _ => .error (.undocumentedDataType checkResponseErrMsg)

/-- Message of the `parse_status` failure on a record missing `status`. -/
def missingStatusMsg : String :=
  "Ключ status отсутствует в словаре homework функции parse_status."

/-- Message of the `parse_status` failure on a record missing
`homework_name` (when `status` is present). -/
def missingNameMsg : String :=
  "Ключ homework_name отсутствует в словаре homework функции parse_status."

/-- Message re-raised by the `except NoDocumentedKeyInDict` branch
around the `itemgetter` extraction in `parse_status`. -/
def reraiseMsg : String :=
  "В словаре homework отсутствует один из задокументированных ключей"

/-- Message of the `parse_status` failure on an unrecognized status. -/
def unknownStatusMsg (status : JValue) : String :=
  "В функции parse_status ключ " ++ pyStr status ++
    " отсутствует в словаре HOMEWORK_VERDICTS."

/-- The notification template rendered by `parse_status` on success. -/
def statusTemplate (name : JValue) (verdict : String) : String :=
  "Изменился статус проверки работы \"" ++ pyStr name ++ "\". " ++ verdict

/-- `status in HOMEWORK_VERDICTS` for an arbitrary value: a non-string
is never equal to a string key, hence never a member. -/
def verdictMember (status : JValue) : Bool :=
  match status with
  | .str s => (verdictLookup s).isSome
  | _ => false

/-- `parse_status`: checks `status` membership, then `homework_name`
membership, extracts both with `itemgetter` (re-raising through the
`except NoDocumentedKeyInDict` branch when that class is caught), checks
the status against the verdict table and renders the template. -/
def parse_status (homework : JValue) : Except PyError String :=
  match pyContains homework "status" with
  | .error e => .error e
  | .ok hasStatus =>
    if !hasStatus then
      .error (.noDocumentedKeyInDict missingStatusMsg)
    else
      match pyContains homework "homework_name" with
      | .error e => .error e
      | .ok hasName =>
        if !hasName then
          .error (.noDocumentedKeyInDict missingNameMsg)
        else
          match itemgetter2 homework "homework_name" "status" with
          | .error (.noDocumentedKeyInDict _) =>
              .error (.noDocumentedKeyInDict reraiseMsg)
          | .error e => .error e
          | .ok (homework_name, status) =>
              if !verdictMember status then
                .error (.noDocumentedKeyInDict (unknownStatusMsg status))
              else
                match status with
                | .str s =>
                    match verdictLookup s with
                    | some verdict => .ok (statusTemplate homework_name verdict)
                    | none =>
                        .error (.noDocumentedKeyInDict (unknownStatusMsg status))
                | _ => .error (.noDocumentedKeyInDict (unknownStatusMsg status))

/-- Python truthiness, as `if response_from_api['homeworks']:` uses it. -/
def pyTruthy : JValue → Bool
  | .null => false
  | .bool b => b
  | .int n => n != 0
  | .str s => s ≠ ""
  | .list xs => !xs.isEmpty
  | .dict es => !es.isEmpty

/-- Python subscript `container[i]` for an integer index (only lists and
dicts arise here; a dict has no integer key in decoded JSON). -/
def pyIndex (container : JValue) (i : Nat) : Except PyError JValue :=
  match container with
  | .list xs =>
      match xs.get? i with
      | some v => .ok v
      | none => .error (.typeError "list index out of range")
  | .dict _ => .error (.keyError (toString i))
  | _ => .error (.typeError "object is not subscriptable")

/-- One diagnostic record emitted through the `logging` module. -/
inductive LogEvent where
  | debug (msg : String)
  | error (msg : String)
  | exception (msg : String)
  | critical (msg : String)
deriving Repr, DecidableEq

/-- The HTTP request `get_api_answer` issues: the fixed endpoint with the
checkpoint as the `from_date` query parameter (the fixed header set is
constant and carried implicitly). -/
structure HttpRequest where
  url : String
  from_date : JValue
deriving Repr

/-- Outcome of the one `requests.get` call of a cycle: either the call
raises `requests.RequestException`, or it completes with a status code
and a body that decodes to a `JValue`. -/
inductive HttpOutcome where
  | raised
  | response (status : Nat) (body : JValue)

/-- The request built from a checkpoint value (`params={'from_date': timestamp}`). -/
def mkRequest (timestamp : JValue) : HttpRequest :=
  { url := ENDPOINT, from_date := timestamp }

/-- `get_api_answer`.  When `requests.get` raises, the `except` branch
builds its message from `response_from_api.status_code`; that local was
never assigned (the assignment is what raised), so constructing the
message itself raises `UnboundLocalError` and the intended
`requests.RequestException` is never created.  A non-200 completion
raises `requests.HTTPError`; a 200 completion returns the decoded body. -/
def get_api_answer (transport : HttpRequest → HttpOutcome) (timestamp : JValue) :
    Except PyError JValue :=
  match transport (mkRequest timestamp) with
  | .raised => .error (.unboundLocalError "response_from_api")
  | .response status body =>
      if status ≠ 200 then
        .error (.httpError ("при запросе сервер вернул код " ++ toString status))
      else
        .ok body

/-- Outcome of one `bot.send_message(TELEGRAM_CHAT_ID, message)` call:
delivered, or raised `telegram.error.TelegramError`. -/
inductive SendOutcome where
  | delivered
  | telegramFailure (msg : String)

/-- The undecorated `send_message` body: one delivery attempt, then a
success diagnostic; a `TelegramError` from the attempt propagates. -/
def send_message_inner (deliver : String → SendOutcome) (message : String) :
    List LogEvent × Except PyError Unit :=
  match deliver message with
  | .delivered =>
      ([.debug "Сообщение успешно отправлено в Telegram bot"], .ok ())
  | .telegramFailure e => ([], .error (.telegramError e))

/-- `send_message` as decorated by `send_message_logging`: logs the call,
runs the body, and catches exactly `telegram.error.TelegramError`,
logging it and returning normally; any other exception would propagate. -/
def send_message (deliver : String → SendOutcome) (bot message : String) :
    List LogEvent × Except PyError Unit :=
  let callLog := LogEvent.debug
    ("Вызов функции: send_message с аргументами: bot: " ++ bot ++
      ", текст отправляемого сообщения: " ++ message)
  match send_message_inner deliver message with
  | (ls, .ok ()) => (callLog :: ls, .ok ())
  | (ls, .error (.telegramError e)) =>
      (callLog :: (ls ++
        [.exception ("Функции send_message не удалось отправить сообщение "
          ++ "в Telegram bot. Ошибка: " ++ e)]), .ok ())
  | (ls, .error e) => (callLog :: ls, .error e)

/-- The three environment-variable secrets, `None` when absent. -/
structure Secrets where
  practicum_token : Option String
  telegram_token : Option String
  telegram_chat_id : Option String

/-- The `missing_env` comprehension of `check_tokens`: the names in
`TOKEN_NAMES` whose global is `None`, in the module's `globals()`
insertion order (the alphabetical order of the `constants` import list:
`PRACTICUM_TOKEN`, `TELEGRAM_CHAT_ID`, `TELEGRAM_TOKEN`). -/
def missing_env (s : Secrets) : List String :=
  (if s.practicum_token.isNone then ["PRACTICUM_TOKEN"] else []) ++
  (if s.telegram_chat_id.isNone then ["TELEGRAM_CHAT_ID"] else []) ++
  (if s.telegram_token.isNone then ["TELEGRAM_TOKEN"] else [])

/-- `check_tokens`: walks the three secrets and, at the first absent one,
logs the full list of missing names and raises `NoEnvironmentVariables`
(so it raises iff at least one secret is absent). -/
def check_tokens (s : Secrets) : List LogEvent × Except PyError Unit :=
  if s.practicum_token.isNone || s.telegram_token.isNone
      || s.telegram_chat_id.isNone then
    ([.critical ("Отсутствует одна или несколько переменных окружения: "
        ++ String.intercalate ", " (missing_env s))],
      .error (.noEnvironmentVariables
        ("Переменная окружения " ++ String.intercalate ", " (missing_env s)
          ++ " отсутствует.")))
  else
    ([], .ok ())

/-- The `try` block of one loop iteration in `main`: fetch, shape-check,
then either render-and-send the first record or log the no-news
diagnostic, and finally read the new checkpoint from the response.
Returns the new checkpoint (or the exception reaching the iteration's
`except`), together with the messages handed to `send_message` and the
diagnostics emitted, which persist even when a later step raises. -/
def try_cycle (transport : HttpRequest → HttpOutcome)
    (deliver : String → SendOutcome) (bot : String) (timestamp : JValue) :
    Except PyError JValue × List String × List LogEvent :=
  match get_api_answer transport timestamp with
  | .error e => (.error e, [], [])
  | .ok response =>
    match check_response response with
    | .error e => (.error e, [], [])
    | .ok () =>
      let shapeLog := [LogEvent.debug "Полученные данные соответствуют документации API."]
      match pySubscript response "homeworks" with
      | .error e => (.error e, [], shapeLog)
      | .ok hw =>
        if pyTruthy hw then
          match pyIndex hw FIRST_ELEMENT with
          | .error e => (.error e, [], shapeLog)
          | .ok first =>
            match parse_status first with
            | .error e => (.error e, [], shapeLog)
            | .ok message =>
              match send_message deliver bot message with
              | (slogs, .error e) => (.error e, [message], shapeLog ++ slogs)
              | (slogs, .ok ()) =>
                match pySubscript response "current_date" with
                | .error e => (.error e, [message], shapeLog ++ slogs)
                | .ok newTs => (.ok newTs, [message], shapeLog ++ slogs)
        else
          let emptyLog := shapeLog ++
            [LogEvent.debug "Отсутствует новый статус домашней работы."]
          match pySubscript response "current_date" with
          | .error e => (.error e, [], emptyLog)
          | .ok newTs => (.ok newTs, [], emptyLog)

/-- The fixed prefix of the failure notification and failure log line. -/
def failureHeader : String := "Сбой в работе программы: "

/-- Everything observable about one iteration of the `while True` loop. -/
structure IterResult where
  timestamp : JValue
  requests : List HttpRequest
  sends : List String
  logs : List LogEvent
  escaped : Option PyError
  slept : Nat

/-- One iteration of `main`'s loop: run the `try` block; on any
`Exception` (every `PyError` constructor models an `Exception` subclass)
the `except` branch logs the failure and attempts one failure
notification, leaving the checkpoint unchanged; the `finally` branch
sleeps `RETRY_PERIOD` either way.  `escaped` is the exception leaving
the iteration (only possible if the failure notification itself raised
something other than `TelegramError`). -/
def main_iteration (transport : HttpRequest → HttpOutcome)
    (deliver : String → SendOutcome) (bot : String) (timestamp : JValue) :
    IterResult :=
  let req := mkRequest timestamp
  match try_cycle transport deliver bot timestamp with
  | (.ok newTs, sends, logs) =>
      ⟨newTs, [req], sends, logs, none, RETRY_PERIOD⟩
  | (.error e, sends, logs) =>
      let message := failureHeader ++ errStr e
      let (slogs, sres) := send_message deliver bot message
      let logs' := logs ++ [LogEvent.error (failureHeader ++ errStr e)] ++ slogs
      match sres with
      | .ok () => ⟨timestamp, [req], sends ++ [message], logs', none, RETRY_PERIOD⟩
      | .error e2 => ⟨timestamp, [req], sends ++ [message], logs', some e2, RETRY_PERIOD⟩

/-- A fuel-bounded run of `main`'s loop, recording every HTTP request
issued; an exception escaping an iteration ends the process. -/
def main_loop (transport : HttpRequest → HttpOutcome)
    (deliver : String → SendOutcome) (bot : String) :
    Nat → JValue → List HttpRequest
  | 0, _ => []
  | fuel + 1, ts =>
      let r := main_iteration transport deliver bot ts
      match r.escaped with
      | some _ => r.requests
      | none => r.requests ++ main_loop transport deliver bot fuel r.timestamp

/-- `main` up to and including a fuel-bounded loop: `check_tokens` runs
first, and on a configuration error the process exits before the bot is
constructed, before the loop, and before any HTTP request. -/
def main_run (s : Secrets) (transport : HttpRequest → HttpOutcome)
    (deliver : String → SendOutcome) (bot : String) (ts0 : JValue)
    (fuel : Nat) : Option PyError × List HttpRequest :=
  match (check_tokens s).2 with
  | .error e => (some e, [])
  | .ok () => (none, main_loop transport deliver bot fuel ts0)

/-! ### Helper lemmas -/

/-- Whether an exception is an instance of the `NoDocumentedKeyInDict`
class that `parse_status`'s `except` clause catches. -/
def isNoDocumentedKey : PyError → Bool
  | .noDocumentedKeyInDict _ => true
  | _ => false

lemma send_message_snd_ok (deliver : String → SendOutcome) (bot message : String) :
    (send_message deliver bot message).2 = .ok () := by
  cases hd : deliver message <;>
    simp [send_message, send_message_inner, hd]

lemma check_response_ok_iff (es : List (String × JValue)) :
    check_response (.dict es) = .ok () ↔
      ((dictLookup es "current_date").isSome = true ∧
        ∃ xs, dictLookup es "homeworks" = some (.list xs)) := by
  rcases hcd : dictLookup es "current_date" with _ | cd
  · simp [check_response, hcd]
  · rcases hhw : dictLookup es "homeworks" with _ | hw
    · simp [check_response, hcd, hhw]
    · cases hw <;> simp [check_response, hcd, hhw]

lemma check_response_error (response : JValue)
    (h : check_response response ≠ .ok ()) :
    check_response response
      = .error (.undocumentedDataType checkResponseErrMsg) := by
  cases response with
  | dict es =>
      revert h
      simp only [check_response]
      split <;> simp
  | null => rfl
  | bool b => rfl
  | int n => rfl
  | str s => rfl
  | list xs => rfl

lemma unknownStatusMsg_ne_reraiseMsg (v : JValue) :
    unknownStatusMsg v ≠ reraiseMsg := by
  intro h
  have hd := congrArg String.data h
  rw [unknownStatusMsg, String.data_append, String.data_append] at hd
  have h3 := congrArg (List.take 3) hd
  rw [List.append_assoc, List.take_append_of_le_length (by decide)] at h3
  exact absurd h3 (by decide)

lemma main_iteration_ok (transport : HttpRequest → HttpOutcome)
    (deliver : String → SendOutcome) (bot : String) (ts newTs : JValue)
    (sends : List String) (logs : List LogEvent)
    (h : try_cycle transport deliver bot ts = (.ok newTs, sends, logs)) :
    main_iteration transport deliver bot ts
      = ⟨newTs, [mkRequest ts], sends, logs, none, RETRY_PERIOD⟩ := by
  simp [main_iteration, h]

lemma main_iteration_error (transport : HttpRequest → HttpOutcome)
    (deliver : String → SendOutcome) (bot : String) (ts : JValue) (e : PyError)
    (sends : List String) (logs : List LogEvent)
    (h : try_cycle transport deliver bot ts = (.error e, sends, logs)) :
    main_iteration transport deliver bot ts
      = ⟨ts, [mkRequest ts], sends ++ [failureHeader ++ errStr e],
          logs ++ [LogEvent.error (failureHeader ++ errStr e)]
            ++ (send_message deliver bot (failureHeader ++ errStr e)).1,
          none, RETRY_PERIOD⟩ := by
  have hsnd := send_message_snd_ok deliver bot (failureHeader ++ errStr e)
  rcases hs2 : send_message deliver bot (failureHeader ++ errStr e) with ⟨slogs, sres⟩
  rw [hs2] at hsnd
  simp at hsnd
  subst hsnd
  simp [main_iteration, h, hs2]

lemma main_iteration_timestamp_of_ok (transport : HttpRequest → HttpOutcome)
    (deliver : String → SendOutcome) (bot : String) (ts newTs : JValue)
    (h : (try_cycle transport deliver bot ts).1 = .ok newTs) :
    (main_iteration transport deliver bot ts).timestamp = newTs := by
  rcases htc : try_cycle transport deliver bot ts with ⟨res, s, l⟩
  rw [htc] at h
  simp at h
  subst h
  rw [main_iteration_ok transport deliver bot ts newTs s l htc]

lemma main_iteration_timestamp_of_error (transport : HttpRequest → HttpOutcome)
    (deliver : String → SendOutcome) (bot : String) (ts : JValue) (e : PyError)
    (h : (try_cycle transport deliver bot ts).1 = .error e) :
    (main_iteration transport deliver bot ts).timestamp = ts := by
  rcases htc : try_cycle transport deliver bot ts with ⟨res, s, l⟩
  rw [htc] at h
  simp at h
  subst h
  rw [main_iteration_error transport deliver bot ts e s l htc]

lemma main_iteration_requests (transport : HttpRequest → HttpOutcome)
    (deliver : String → SendOutcome) (bot : String) (ts : JValue) :
    (main_iteration transport deliver bot ts).requests = [mkRequest ts] := by
  rcases htc : try_cycle transport deliver bot ts with ⟨res, s, l⟩
  cases res with
  | ok newTs => rw [main_iteration_ok transport deliver bot ts newTs s l htc]
  | error e => rw [main_iteration_error transport deliver bot ts e s l htc]

lemma main_iteration_escaped (transport : HttpRequest → HttpOutcome)
    (deliver : String → SendOutcome) (bot : String) (ts : JValue) :
    (main_iteration transport deliver bot ts).escaped = none ∧
    (main_iteration transport deliver bot ts).slept = RETRY_PERIOD := by
  rcases htc : try_cycle transport deliver bot ts with ⟨res, s, l⟩
  cases res with
  | ok newTs => rw [main_iteration_ok transport deliver bot ts newTs s l htc]; exact ⟨rfl, rfl⟩
  | error e => rw [main_iteration_error transport deliver bot ts e s l htc]; exact ⟨rfl, rfl⟩

lemma advance_on_empty (es : List (String × JValue))
    (deliver : String → SendOutcome) (bot : String) (ts v : JValue)
    (hcd : dictLookup es "current_date" = some v)
    (hhw : dictLookup es "homeworks" = some (.list [])) :
    (main_iteration (fun _ => .response 200 (.dict es)) deliver bot ts).timestamp
      = v := by
  have hvalid : check_response (.dict es) = .ok () :=
    (check_response_ok_iff es).2 ⟨by simp [hcd], ⟨[], hhw⟩⟩
  refine main_iteration_timestamp_of_ok _ deliver bot ts v ?_
  simp [try_cycle, get_api_answer, hvalid, pySubscript, hhw, hcd, pyTruthy]

/-! ### Claims -/

/-- C2: evaluating `get_api_answer` at the failing input — the GET
raising a transport-level `requests.RequestException` — shows it fails
with `UnboundLocalError` on the never-assigned `response_from_api` (the
`except` branch reads `response_from_api.status_code` while building its
message), not with the documented "request failed"
`requests.RequestException`; a non-200 completion fails with the
"unexpected status" `HTTPError`, and a 200 completion returns the
decoded JSON body. -/
theorem claim_C2 :
    get_api_answer (fun _ => .raised) (.int 0)
        = .error (.unboundLocalError "response_from_api") ∧
    get_api_answer (fun _ => .response 404 .null) (.int 0)
        = .error (.httpError "при запросе сервер вернул код 404") ∧
    get_api_answer (fun _ => .response 200 (.dict [])) (.int 0)
        = .ok (.dict []) :=
  ⟨rfl, rfl, rfl⟩

/-- C3: for a record whose `homework_name` is a string and whose
`status` is a string that is a key of the Verdict Table, `parse_status`
returns exactly the template with the name and the table's verdict
substituted; for a string status absent from the table it fails with a
contract error naming the unrecognized status. -/
theorem claim_C3 (es : List (String × JValue)) (name status : String)
    (hname : dictLookup es "homework_name" = some (.str name))
    (hstatus : dictLookup es "status" = some (.str status)) :
    (∀ verdict, verdictLookup status = some verdict →
        parse_status (.dict es)
          = .ok ("Изменился статус проверки работы \"" ++ name ++ "\". "
              ++ verdict)) ∧
    (verdictLookup status = none →
        parse_status (.dict es)
          = .error (.noDocumentedKeyInDict
              ("В функции parse_status ключ " ++ status
                ++ " отсутствует в словаре HOMEWORK_VERDICTS."))) := by
  constructor
  · intro verdict hv
    simp [parse_status, pyContains, hname, hstatus, itemgetter2, pySubscript,
      verdictMember, hv, statusTemplate, pyStr]
  · intro hv
    simp [parse_status, pyContains, hname, hstatus, itemgetter2, pySubscript,
      verdictMember, hv, unknownStatusMsg, pyStr]

/-- C3 witness: the `approved` record of the spec's scenario A. -/
theorem claim_C3_witness :
    parse_status (.dict [("homework_name", .str "X"), ("status", .str "approved")])
      = .ok ("Изменился статус проверки работы \"" ++ "X" ++ "\". "
          ++ "Работа проверена: ревьюеру всё понравилось. Ура!") :=
  (claim_C3 [("homework_name", .str "X"), ("status", .str "approved")]
      "X" "approved" rfl rfl).1 _ rfl

/-- C4: shape validation succeeds iff the value is a dict containing
both the `homeworks` and `current_date` keys with a list under
`homeworks`; every failure raises the one `UndocumentedDataType` error
with the one fixed message, so the failure cases are indistinguishable. -/
theorem claim_C4 (response : JValue) :
    (check_response response = .ok () ↔
      ∃ es, response = .dict es ∧ (dictLookup es "current_date").isSome
        ∧ ∃ xs, dictLookup es "homeworks" = some (.list xs)) ∧
    (check_response response ≠ .ok () →
      check_response response
        = .error (.undocumentedDataType checkResponseErrMsg)) := by
  refine ⟨⟨?_, ?_⟩, check_response_error response⟩
  · intro h
    rcases response with _ | b | n | s | xs | es
    · simp [check_response] at h
    · simp [check_response] at h
    · simp [check_response] at h
    · simp [check_response] at h
    · simp [check_response] at h
    · exact ⟨es, rfl, (check_response_ok_iff es).1 h⟩
  · rintro ⟨es, rfl, h1, h2⟩
    exact (check_response_ok_iff es).2 ⟨h1, h2⟩

/-- C4 witness: a response with a non-list under `homeworks` fails with
the shape error, and a well-shaped response passes. -/
theorem claim_C4_witness :
    check_response (.dict [("homeworks", .int 3), ("current_date", .int 17)])
      = .error (.undocumentedDataType checkResponseErrMsg) ∧
    check_response (.dict [("homeworks", .list []), ("current_date", .int 17)])
      = .ok () :=
  ⟨(claim_C4 _).2 (fun h => Except.noConfusion h),
    (claim_C4 _).1.2 ⟨_, rfl, rfl, ⟨[], rfl⟩⟩⟩

/-- C8 counterexample: the empty record is missing `homework_name`, yet
the contract error raised names `status` — its message does not mention
`homework_name` at all — so "fails with a contract error whose message
names that missing field ... whether or not the other field is present"
is false for records missing both fields. -/
theorem claim_C8_counterexample :
    dictLookup [] "homework_name" = none ∧
    parse_status (.dict [])
      = .error (.noDocumentedKeyInDict missingStatusMsg) ∧
    containsSubstr missingStatusMsg "homework_name" = false ∧
    containsSubstr missingStatusMsg "status" = true :=
  ⟨rfl, rfl, by decide, by decide⟩

/-- C8 amended: a record missing `status` fails with the contract error
naming `status`, whether or not `homework_name` is present; a record
missing `homework_name` fails with the contract error naming
`homework_name` provided `status` is present (when both are missing,
the `status` check fires first and the error names `status`). -/
theorem claim_C8 (es : List (String × JValue)) :
    (dictLookup es "status" = none →
        parse_status (.dict es)
          = .error (.noDocumentedKeyInDict missingStatusMsg)) ∧
    ((dictLookup es "status").isSome = true →
      dictLookup es "homework_name" = none →
        parse_status (.dict es)
          = .error (.noDocumentedKeyInDict missingNameMsg)) := by
  constructor
  · intro h
    simp [parse_status, pyContains, h]
  · intro h1 h2
    simp [parse_status, pyContains, h1, h2]

/-- C8 amended witness: a record with `status` only, and a record with
`homework_name` only. -/
theorem claim_C8_witness :
    parse_status (.dict [("status", .str "approved")])
      = .error (.noDocumentedKeyInDict missingNameMsg) ∧
    parse_status (.dict [("homework_name", .str "X")])
      = .error (.noDocumentedKeyInDict missingStatusMsg) :=
  ⟨(claim_C8 [("status", .str "approved")]).2 rfl rfl,
    (claim_C8 [("homework_name", .str "X")]).1 rfl⟩

/-- C10: for every record that passes the two explicit membership
checks, the `itemgetter` extraction succeeds, returning exactly the two
stored values, and `parse_status` never produces the error re-raised by
the `except NoDocumentedKeyInDict` branch around the extraction — that
branch is unreachable. -/
theorem claim_C10 (es : List (String × JValue))
    (h1 : (dictLookup es "status").isSome = true)
    (h2 : (dictLookup es "homework_name").isSome = true) :
    (∃ nv sv, dictLookup es "homework_name" = some nv ∧
        dictLookup es "status" = some sv ∧
        itemgetter2 (.dict es) "homework_name" "status" = .ok (nv, sv)) ∧
    parse_status (.dict es)
      ≠ .error (.noDocumentedKeyInDict reraiseMsg) := by
  rcases hs : dictLookup es "status" with _ | sv
  · rw [hs] at h1; exact absurd h1 (by simp)
  rcases hn : dictLookup es "homework_name" with _ | nv
  · rw [hn] at h2; exact absurd h2 (by simp)
  refine ⟨⟨nv, sv, rfl, rfl, by simp [itemgetter2, pySubscript, hn, hs]⟩, ?_⟩
  intro hbad
  rcases hv : verdictMember sv with _ | _
  · simp [parse_status, pyContains, hn, hs, itemgetter2, pySubscript, hv] at hbad
    exact unknownStatusMsg_ne_reraiseMsg sv hbad
  · cases sv with
    | str s =>
        rcases hl : verdictLookup s with _ | verdict
        · simp [verdictMember, hl] at hv
        · simp [parse_status, pyContains, hn, hs, itemgetter2, pySubscript,
            hv, hl] at hbad
    | null => simp [verdictMember] at hv
    | bool b => simp [verdictMember] at hv
    | int n => simp [verdictMember] at hv
    | list xs => simp [verdictMember] at hv
    | dict es2 => simp [verdictMember] at hv

/-- C10 witness: the scenario-A record passes both checks and the
extraction yields its two stored values. -/
theorem claim_C10_witness :
    (∃ nv sv,
      dictLookup [("homework_name", JValue.str "X"), ("status", JValue.str "approved")]
          "homework_name" = some nv ∧
      dictLookup [("homework_name", JValue.str "X"), ("status", JValue.str "approved")]
          "status" = some sv ∧
      itemgetter2 (.dict [("homework_name", JValue.str "X"), ("status", JValue.str "approved")])
          "homework_name" "status" = .ok (nv, sv)) ∧
    parse_status (.dict [("homework_name", JValue.str "X"), ("status", JValue.str "approved")])
      ≠ .error (.noDocumentedKeyInDict reraiseMsg) :=
  claim_C10 [("homework_name", JValue.str "X"), ("status", JValue.str "approved")] rfl rfl

/-- C6: for every delivery behaviour, bot and message, `send_message`
returns normally — the wrapper catches the `TelegramError`, so the
caller is never informed of a delivery failure and nothing propagates
to the loop's outer catch-all — and on a delivery failure the logged
record of the failure is present. -/
theorem claim_C6 (deliver : String → SendOutcome) (bot message : String) :
    (send_message deliver bot message).2 = .ok () ∧
    (∀ e, deliver message = .telegramFailure e →
      LogEvent.exception ("Функции send_message не удалось отправить сообщение "
          ++ "в Telegram bot. Ошибка: " ++ e)
        ∈ (send_message deliver bot message).1) := by
  refine ⟨send_message_snd_ok deliver bot message, ?_⟩
  intro e he
  simp [send_message, send_message_inner, he]

/-- C6 witness: a delivery that always fails is swallowed and logged. -/
theorem claim_C6_witness :
    (send_message (fun _ => .telegramFailure "boom") "bot" "hi").2 = .ok () ∧
    LogEvent.exception ("Функции send_message не удалось отправить сообщение "
        ++ "в Telegram bot. Ошибка: " ++ "boom")
      ∈ (send_message (fun _ => .telegramFailure "boom") "bot" "hi").1 :=
  ⟨(claim_C6 (fun _ => .telegramFailure "boom") "bot" "hi").1,
    (claim_C6 (fun _ => .telegramFailure "boom") "bot" "hi").2 "boom" rfl⟩

/-- C7: if any of the three secrets is absent at startup, `main` fails
with the fatal `NoEnvironmentVariables` configuration error before the
loop is entered — zero HTTP requests are issued; if all three are
present, `check_tokens` succeeds and the loop is entered. -/
theorem claim_C7 (s : Secrets) (transport : HttpRequest → HttpOutcome)
    (deliver : String → SendOutcome) (bot : String) (ts0 : JValue) (fuel : Nat) :
    ((s.practicum_token = none ∨ s.telegram_token = none
        ∨ s.telegram_chat_id = none) →
      ∃ m, main_run s transport deliver bot ts0 fuel
        = (some (.noEnvironmentVariables m), [])) ∧
    (s.practicum_token.isSome = true → s.telegram_token.isSome = true →
      s.telegram_chat_id.isSome = true →
      (check_tokens s).2 = .ok () ∧
      main_run s transport deliver bot ts0 fuel
        = (none, main_loop transport deliver bot fuel ts0)) := by
  constructor
  · intro h
    have hcond : (s.practicum_token.isNone || s.telegram_token.isNone
        || s.telegram_chat_id.isNone) = true := by
      rcases h with h | h | h <;> simp [h]
    refine ⟨"Переменная окружения "
        ++ String.intercalate ", " (missing_env s) ++ " отсутствует.", ?_⟩
    simp [main_run, check_tokens, hcond]
  · intro h1 h2 h3
    have hcond : (s.practicum_token.isNone || s.telegram_token.isNone
        || s.telegram_chat_id.isNone) = false := by
      cases hp : s.practicum_token with
      | none => rw [hp] at h1; simp at h1
      | some vp =>
        cases ht : s.telegram_token with
        | none => rw [ht] at h2; simp at h2
        | some vt =>
          cases hc : s.telegram_chat_id with
          | none => rw [hc] at h3; simp at h3
          | some vc => simp [hp, ht, hc]
    constructor
    · simp [check_tokens, hcond]
    · simp [main_run, check_tokens, hcond]

/-- C7 witness: with the bot token absent the run is fatal with zero
requests; with all three present the loop is entered. -/
theorem claim_C7_witness :
    (∃ m, main_run ⟨some "a", none, some "c"⟩ (fun _ => .raised)
        (fun _ => .delivered) "bot" (.int 0) 5
      = (some (.noEnvironmentVariables m), [])) ∧
    main_run ⟨some "a", some "b", some "c"⟩ (fun _ => .raised)
        (fun _ => .delivered) "bot" (.int 0) 5
      = (none, main_loop (fun _ => .raised) (fun _ => .delivered) "bot" 5 (.int 0)) :=
  ⟨(claim_C7 ⟨some "a", none, some "c"⟩ (fun _ => .raised)
      (fun _ => .delivered) "bot" (.int 0) 5).1 (Or.inr (Or.inl rfl)),
    ((claim_C7 ⟨some "a", some "b", some "c"⟩ (fun _ => .raised)
      (fun _ => .delivered) "bot" (.int 0) 5).2 rfl rfl rfl).2⟩

/-- C5: once the loop runs, no cycle failure terminates the process:
for every transport behaviour (covering transport failures, non-200
statuses, shape failures and contract failures alike), every delivery
behaviour and every checkpoint, the iteration swallows the exception,
the `finally` sleep of the fixed interval runs, the failure is logged,
one failure notification is attempted, and the loop proceeds to the
next iteration. -/
theorem claim_C5 (transport : HttpRequest → HttpOutcome)
    (deliver : String → SendOutcome) (bot : String) (ts : JValue) :
    (main_iteration transport deliver bot ts).escaped = none ∧
    (main_iteration transport deliver bot ts).slept = RETRY_PERIOD ∧
    (∀ e sends logs,
      try_cycle transport deliver bot ts = (.error e, sends, logs) →
      LogEvent.error (failureHeader ++ errStr e)
          ∈ (main_iteration transport deliver bot ts).logs ∧
      (failureHeader ++ errStr e)
          ∈ (main_iteration transport deliver bot ts).sends) ∧
    (∀ fuel, main_loop transport deliver bot (fuel + 1) ts
        = (main_iteration transport deliver bot ts).requests
          ++ main_loop transport deliver bot fuel
              (main_iteration transport deliver bot ts).timestamp) := by
  obtain ⟨hesc, hslept⟩ := main_iteration_escaped transport deliver bot ts
  refine ⟨hesc, hslept, ?_, ?_⟩
  · intro e sends logs h
    rw [main_iteration_error transport deliver bot ts e sends logs h]
    constructor
    · simp
    · simp
  · intro fuel
    rw [main_loop]
    rw [hesc]

/-- C5 witness: a transport failure is swallowed, logged and reported,
and the loop goes on. -/
theorem claim_C5_witness :
    (main_iteration (fun _ => .raised) (fun _ => .delivered) "bot" (.int 0)).escaped
      = none ∧
    LogEvent.error (failureHeader ++ errStr (.unboundLocalError "response_from_api"))
      ∈ (main_iteration (fun _ => .raised) (fun _ => .delivered) "bot" (.int 0)).logs ∧
    (failureHeader ++ errStr (.unboundLocalError "response_from_api"))
      ∈ (main_iteration (fun _ => .raised) (fun _ => .delivered) "bot" (.int 0)).sends :=
  ⟨(claim_C5 (fun _ => .raised) (fun _ => .delivered) "bot" (.int 0)).1,
    ((claim_C5 (fun _ => .raised) (fun _ => .delivered) "bot" (.int 0)).2.2.1
      (.unboundLocalError "response_from_api") [] [] rfl).1,
    ((claim_C5 (fun _ => .raised) (fun _ => .delivered) "bot" (.int 0)).2.2.1
      (.unboundLocalError "response_from_api") [] [] rfl).2⟩

/-- The response of the C1 counterexample: it passes shape validation,
but its first homework record is missing `homework_name`, so rendering
fails before the checkpoint-advance line is reached. -/
def c1Response : JValue :=
  .dict [("homeworks", .list [.dict [("status", .str "approved")]]),
    ("current_date", .int 1700000000)]

/-- C1 counterexample: a fetched response passes shape validation, yet
the checkpoint at the end of the iteration is still the old value `0`
rather than the response's `current_date` value `1700000000`, because
rendering the first record failed: the advance is written after the
render-and-send step inside the `try` block, so a rendering failure
jumps to the `except` branch first. -/
theorem claim_C1_counterexample :
    check_response c1Response = .ok () ∧
    pySubscript c1Response "current_date" = .ok (.int 1700000000) ∧
    (main_iteration (fun _ => .response 200 c1Response)
        (fun _ => .delivered) "bot" (.int 0)).timestamp = .int 0 :=
  ⟨rfl, rfl, rfl⟩

/-- C1 amended: the checkpoint is set to the response's `current_date`
by the end of every iteration whose shape-validated response has an
empty homework list, and of every iteration in which rendering the first
record succeeded — independently of the delivery behaviour, so a failed
send never prevents the advance; but when rendering the first record
fails, the checkpoint keeps its old value. -/
theorem claim_C1 (es : List (String × JValue)) (deliver : String → SendOutcome)
    (bot : String) (ts v : JValue)
    (hcd : dictLookup es "current_date" = some v) :
    (dictLookup es "homeworks" = some (.list []) →
      (main_iteration (fun _ => .response 200 (.dict es)) deliver bot ts).timestamp
        = v) ∧
    (∀ first rest m, dictLookup es "homeworks" = some (.list (first :: rest)) →
      parse_status first = .ok m →
      (main_iteration (fun _ => .response 200 (.dict es)) deliver bot ts).timestamp
        = v) ∧
    (∀ first rest e, dictLookup es "homeworks" = some (.list (first :: rest)) →
      parse_status first = .error e →
      (main_iteration (fun _ => .response 200 (.dict es)) deliver bot ts).timestamp
        = ts) := by
  refine ⟨fun hhw => advance_on_empty es deliver bot ts v hcd hhw, ?_, ?_⟩
  · intro first rest m hhw hrender
    have hvalid : check_response (.dict es) = .ok () :=
      (check_response_ok_iff es).2 ⟨by simp [hcd], ⟨first :: rest, hhw⟩⟩
    refine main_iteration_timestamp_of_ok _ deliver bot ts v ?_
    have hsnd := send_message_snd_ok deliver bot m
    rcases hs2 : send_message deliver bot m with ⟨slogs, sres⟩
    rw [hs2] at hsnd
    simp at hsnd
    subst hsnd
    simp [try_cycle, get_api_answer, hvalid, pySubscript, hhw, hcd, pyTruthy,
      pyIndex, FIRST_ELEMENT, hrender, hs2]
  · intro first rest e hhw hrender
    have hvalid : check_response (.dict es) = .ok () :=
      (check_response_ok_iff es).2 ⟨by simp [hcd], ⟨first :: rest, hhw⟩⟩
    refine main_iteration_timestamp_of_error _ deliver bot ts e ?_
    simp [try_cycle, get_api_answer, hvalid, pySubscript, hhw, hcd, pyTruthy,
      pyIndex, FIRST_ELEMENT, hrender]

/-- C1 amended witness: the spec's scenarios A and B — an `approved`
record and an empty list — both advance the checkpoint, the former also
under a failing delivery. -/
theorem claim_C1_witness :
    (main_iteration (fun _ => .response 200
        (.dict [("homeworks", .list []), ("current_date", .int 1700000100)]))
      (fun _ => .delivered) "bot" (.int 0)).timestamp = .int 1700000100 ∧
    (main_iteration (fun _ => .response 200
        (.dict [("homeworks", .list [.dict [("homework_name", .str "X"),
            ("status", .str "approved")]]),
          ("current_date", .int 1700000000)]))
      (fun _ => .telegramFailure "boom") "bot" (.int 0)).timestamp
        = .int 1700000000 :=
  ⟨(claim_C1 [("homeworks", .list []), ("current_date", .int 1700000100)]
      (fun _ => .delivered) "bot" (.int 0) (.int 1700000100) rfl).1 rfl,
    (claim_C1 [("homeworks", .list [.dict [("homework_name", .str "X"),
        ("status", .str "approved")]]), ("current_date", .int 1700000000)]
      (fun _ => .telegramFailure "boom") "bot" (.int 0) (.int 1700000000) rfl).2.1
      (.dict [("homework_name", .str "X"), ("status", .str "approved")]) [] _
      rfl rfl⟩

/-- C9: shape validation places no constraint on the value under
`current_date` — any value, integer or not, passes when both keys are
present and `homeworks` holds a list — and (for the empty-list cycle)
that value becomes the next checkpoint, which the next iteration passes
as the `from_date` query parameter of its request. -/
theorem claim_C9 (es : List (String × JValue)) (xs : List JValue) (v : JValue)
    (deliver : String → SendOutcome) (bot : String) (ts : JValue)
    (hcd : dictLookup es "current_date" = some v)
    (hhw : dictLookup es "homeworks" = some (.list xs)) :
    check_response (.dict es) = .ok () ∧
    (xs = [] →
      (main_iteration (fun _ => .response 200 (.dict es)) deliver bot ts).timestamp
        = v) ∧
    (∀ transport2, (main_iteration transport2 deliver bot v).requests
        = [{ url := ENDPOINT, from_date := v }]) := by
  refine ⟨(check_response_ok_iff es).2 ⟨by simp [hcd], ⟨xs, hhw⟩⟩, ?_, ?_⟩
  · intro hxs
    subst hxs
    exact advance_on_empty es deliver bot ts v hcd hhw
  · intro transport2
    rw [main_iteration_requests transport2 deliver bot v]
    rfl

/-- C9 witness: a string under `current_date` passes validation and is
carried into the next request's `from_date` parameter. -/
theorem claim_C9_witness :
    check_response (.dict [("homeworks", .list []), ("current_date", .str "oops")])
      = .ok () ∧
    (main_iteration (fun _ => .response 200
        (.dict [("homeworks", .list []), ("current_date", .str "oops")]))
      (fun _ => .delivered) "bot" (.int 0)).timestamp = .str "oops" ∧
    (main_iteration (fun _ => .raised) (fun _ => .delivered) "bot"
        (.str "oops")).requests
      = [{ url := ENDPOINT, from_date := .str "oops" }] :=
  ⟨(claim_C9 [("homeworks", .list []), ("current_date", .str "oops")] [] (.str "oops")
      (fun _ => .delivered) "bot" (.int 0) rfl rfl).1,
    (claim_C9 [("homeworks", .list []), ("current_date", .str "oops")] [] (.str "oops")
      (fun _ => .delivered) "bot" (.int 0) rfl rfl).2.1 rfl,
    (claim_C9 [("homeworks", .list []), ("current_date", .str "oops")] [] (.str "oops")
      (fun _ => .delivered) "bot" (.int 0) rfl rfl).2.2 (fun _ => .raised)⟩

end HomeworkBot
